import Mathlib

/-!
# Verification of the reddit-to-cartoon service layer

A shallow embedding of the algorithmic parts of the repository:

* `src/services/gemini.ts` — the prompt-and-parse operations
  (`findViralStories`, `createStoryFromPrompt`, `generateScript`,
  `analyzeStoryPotential`, `refineStoryContent`) and the throttling retry
  wrapper `retryOperation`;
* `src/components/EbookCreator.tsx` — the sequential illustration batch
  `generateImagesSequentially`, the refinement application in
  `handleFixText`, and the data-URI decoder `base64ToBlob`.

Network calls and JSON parsing are external effects; each operation is
embedded as a pure function of the *outcome* of those effects
(`Except JsError _` for a request or parse that can fail, `Option` for
data that may be absent in the parsed JSON).  JavaScript truthiness
defaults (`x || d`) are modelled explicitly by the `jsOr*` helpers, and
`Date.now()` is a `Nat` parameter.
-/

/-! ## JavaScript value helpers -/

/-- JS `a || d` for an optional string: `undefined`/`null` and the empty
string are falsy. -/
def jsOrStr : Option String → String → String
  | some s, d => if s = "" then d else s
  | none, d => d

/-- JS `a || d` for an optional number: `undefined`/`null` and `0` are
falsy. -/
def jsOrNat : Option Nat → Nat → Nat
  | some n, d => if n = 0 then d else n
  | none, d => d

/-- JS `a || d` for an optional array: any array (even empty) is truthy,
so only `undefined`/`null` falls back. -/
def jsOrList {α : Type} : Option (List α) → List α → List α
  | some l, _ => l
  | none, d => d

/-- First occurrence search: splits `s` as `(before, after)` around the
first occurrence of the sequence `sep`, or `none` when `sep` does not
occur.  Models the scanning done by JS `String.prototype.split` and
`String.prototype.includes`. -/
def findSeq (sep : List Char) : List Char → Option (List Char × List Char)
  | [] => if sep = [] then some ([], []) else none
  | c :: rest =>
    if sep.isPrefixOf (c :: rest) then some ([], (c :: rest).drop sep.length)
    else (findSeq sep rest).map fun p => (c :: p.1, p.2)

/-- JS `s.split(sep)[0]`: the text before the first occurrence of `sep`
(the whole string when `sep` does not occur). -/
def splitPart0 (sep s : List Char) : List Char :=
  match findSeq sep s with
  | none => s
  | some p => p.1

/-- JS `s.split(sep)[1]`: the text between the first and second
occurrences of `sep` (`none` when `sep` does not occur at all, i.e. the
JS value is `undefined`). -/
def splitPart1 (sep s : List Char) : Option (List Char) :=
  match findSeq sep s with
  | none => none
  | some p => some (splitPart0 sep p.2)

/-- JS `s.includes(sub)`. -/
def strIncludes (sub s : String) : Bool :=
  (findSeq sub.data s.data).isSome

/-! ## Error model and the retry wrapper (`src/services/gemini.ts`) -/

/-- The fields of a thrown JS error value that `gemini.ts` inspects. -/
structure JsError where
  status : Option String
  code : Option Nat
  message : Option String
  deriving Repr, DecidableEq

/-- The quota test from `retryOperation`:
`error?.status === "RESOURCE_EXHAUSTED" || error?.code === 429 ||
(error?.message && error.message.includes("429"))`. -/
def isQuotaError (e : JsError) : Bool :=
  e.status == some "RESOURCE_EXHAUSTED" || e.code == some 429 ||
    (match e.message with
     | some m => if m = "" then false else strIncludes "429" m
     | none => false)

/-- Shallow embedding of `retryOperation` (gemini.ts lines 18–31).

The fallible async operation is modelled as a function from the attempt
index (0-based) to its outcome on that attempt.  The result pairs the
final outcome with the list of `setTimeout` delays that were awaited, in
order; its length is the number of retries performed. -/
def retryOperation {α : Type} (op : Nat → Except JsError α) :
    Nat → Nat → Nat → Except JsError α × List Nat
  | 0, _, attempt =>
    match op attempt with
    | .ok v => (.ok v, [])
    | .error e => (.error e, [])
  | r + 1, delay, attempt =>
    match op attempt with
    | .ok v => (.ok v, [])
    | .error e =>
      if isQuotaError e then
        let tail := retryOperation op r (delay * 2) (attempt + 1)
        (tail.1, delay :: tail.2)
      else (.error e, [])

/-- Unfolding step: a successful attempt returns immediately with no
waits, whatever the remaining retry budget. -/
theorem retryOperation_ok {α : Type} (op : Nat → Except JsError α)
    (r delay attempt : Nat) (v : α) (h : op attempt = .ok v) :
    retryOperation op r delay attempt = (.ok v, []) := by
  cases r <;> simp [retryOperation, h]

/-- Unfolding step: a throttled failure with budget left waits `delay`
and recurses with the budget decremented and the delay doubled. -/
theorem retryOperation_throttled {α : Type} (op : Nat → Except JsError α)
    (r delay attempt : Nat) (e : JsError)
    (h : op attempt = .error e) (hq : isQuotaError e = true) :
    retryOperation op (r + 1) delay attempt =
      ((retryOperation op r (delay * 2) (attempt + 1)).1,
        delay :: (retryOperation op r (delay * 2) (attempt + 1)).2) := by
  simp [retryOperation, h, hq]

/-- Unfolding step: a non-throttling failure propagates immediately. -/
theorem retryOperation_other {α : Type} (op : Nat → Except JsError α)
    (r delay attempt : Nat) (e : JsError)
    (h : op attempt = .error e) (hq : isQuotaError e = false) :
    retryOperation op r delay attempt = (.error e, []) := by
  cases r <;> simp [retryOperation, h, hq]

/-- Unfolding step: a failure with no budget left propagates. -/
theorem retryOperation_budget_spent {α : Type} (op : Nat → Except JsError α)
    (delay attempt : Nat) (e : JsError) (h : op attempt = .error e) :
    retryOperation op 0 delay attempt = (.error e, []) := by
  simp [retryOperation, h]

/-- `retryOperation` with the source's default arguments
(`retries = 3`, `delay = 2000`) starting at attempt 0. -/
def retryOperationDefault {α : Type} (op : Nat → Except JsError α) :
    Except JsError α × List Nat :=
  retryOperation op 3 2000 0

/-- C3: an operation that throws a throttling error on its first two
invocations and succeeds on the third makes the retry wrapper return the
success value after exactly 2 retries, having waited 2000 ms before the
first retry and 4000 ms before the second. -/
theorem retryOperation_two_throttles_then_success {α : Type}
    (op : Nat → Except JsError α) (v : α) (e0 e1 : JsError)
    (h0 : op 0 = .error e0) (h1 : op 1 = .error e1) (h2 : op 2 = .ok v)
    (hq0 : isQuotaError e0 = true) (hq1 : isQuotaError e1 = true) :
    retryOperationDefault op = (.ok v, [2000, 4000]) ∧
      (retryOperationDefault op).2.length = 2 := by
  have s1 : retryOperation op 3 2000 0 =
      ((retryOperation op 2 4000 1).1, 2000 :: (retryOperation op 2 4000 1).2) :=
    retryOperation_throttled op 2 2000 0 e0 h0 hq0
  have s2 : retryOperation op 2 4000 1 =
      ((retryOperation op 1 8000 2).1, 4000 :: (retryOperation op 1 8000 2).2) :=
    retryOperation_throttled op 1 4000 1 e1 h1 hq1
  have s3 : retryOperation op 1 8000 2 = (.ok v, []) :=
    retryOperation_ok op 1 8000 2 v h2
  have hmain : retryOperationDefault op = (.ok v, [2000, 4000]) := by
    unfold retryOperationDefault
    rw [s1, s2, s3]
  exact ⟨hmain, by rw [hmain]; rfl⟩

/-- A throttling error value used by concrete witnesses. -/
def quotaErr : JsError := { status := some "RESOURCE_EXHAUSTED", code := none, message := none }

/-- A non-throttling error value used by concrete witnesses. -/
def plainErr : JsError := { status := some "UNAVAILABLE", code := some 503, message := some "network down" }

/-- Witness for C3 at a concrete operation. -/
theorem retryOperation_two_throttles_then_success_witness :
    retryOperationDefault (fun n => if n < 2 then .error quotaErr else .ok 7) =
      (.ok 7, [2000, 4000]) ∧
      (retryOperationDefault (fun n => if n < 2 then .error quotaErr else .ok 7)).2.length = 2 :=
  retryOperation_two_throttles_then_success
    (fun n => if n < 2 then .error quotaErr else .ok 7) 7 quotaErr quotaErr
    rfl rfl rfl (by decide) (by decide)

/-- C4: an operation that always throws a throttling error makes the
retry wrapper perform its full budget of 3 retries, with exponentially
doubling delays 2000 ms, 4000 ms, 8000 ms, and then surface the
throttling error to the caller. -/
theorem retryOperation_exhausts_budget {α : Type}
    (op : Nat → Except JsError α) (e : JsError)
    (h : ∀ n, op n = .error e) (hq : isQuotaError e = true) :
    retryOperationDefault op = (.error e, [2000, 4000, 8000]) := by
  have s1 : retryOperation op 3 2000 0 =
      ((retryOperation op 2 4000 1).1, 2000 :: (retryOperation op 2 4000 1).2) :=
    retryOperation_throttled op 2 2000 0 e (h 0) hq
  have s2 : retryOperation op 2 4000 1 =
      ((retryOperation op 1 8000 2).1, 4000 :: (retryOperation op 1 8000 2).2) :=
    retryOperation_throttled op 1 4000 1 e (h 1) hq
  have s3 : retryOperation op 1 8000 2 =
      ((retryOperation op 0 16000 3).1, 8000 :: (retryOperation op 0 16000 3).2) :=
    retryOperation_throttled op 0 8000 2 e (h 2) hq
  have s4 : retryOperation op 0 16000 3 = (.error e, []) :=
    retryOperation_budget_spent op 16000 3 e (h 3)
  unfold retryOperationDefault
  rw [s1, s2, s3, s4]

/-- Witness for C4 at a concrete always-throttled operation. -/
theorem retryOperation_exhausts_budget_witness :
    retryOperationDefault (fun _ => (.error quotaErr : Except JsError Nat)) =
      (.error quotaErr, [2000, 4000, 8000]) :=
  retryOperation_exhausts_budget (fun _ => .error quotaErr) quotaErr
    (fun _ => rfl) (by decide)

/-- C5: an operation that throws a non-throttling error makes the retry
wrapper propagate that error immediately, with zero retries and zero
delay waits. -/
theorem retryOperation_propagates_other_errors {α : Type}
    (op : Nat → Except JsError α) (e : JsError)
    (h : op 0 = .error e) (hq : isQuotaError e = false) :
    retryOperationDefault op = (.error e, []) := by
  unfold retryOperationDefault
  exact retryOperation_other op 3 2000 0 e h hq

/-- Witness for C5 at a concrete operation failing with a 503. -/
theorem retryOperation_propagates_other_errors_witness :
    retryOperationDefault (fun _ => (.error plainErr : Except JsError Nat)) =
      (.error plainErr, []) :=
  retryOperation_propagates_other_errors (fun _ => .error plainErr) plainErr
    rfl (by decide)

/-! ## Data model (`src/types.ts`) -/

/-- Layout choice of a story. -/
inductive LayoutStyle
  | STORYBOOK
  | COMIC_STRIP
  deriving Repr, DecidableEq

/-- The `Story` record; optional TS fields become `Option`. -/
structure Story where
  id : String
  title : String
  summary : String
  source : Option String
  panelCount : Option Nat
  visualStyle : Option String
  layoutStyle : Option LayoutStyle
  targetAudience : Option String
  deriving Repr, DecidableEq

/-- The `Panel` record. -/
structure Panel where
  id : Nat
  description : String
  caption : String
  imageUrl : Option String
  isGenerating : Bool
  deriving Repr, DecidableEq

/-- The `AnalysisResult` record (the `viralPotential` enum is kept as a
string, as the JSON layer delivers it). -/
structure AnalysisResult where
  score : Nat
  viralPotential : String
  coherenceCheck : String
  critique : String
  textQuality : String
  visualQuality : String
  suggestions : List String
  deriving Repr, DecidableEq

/-- One `{id, caption}` entry of `RefinedContent.refinedPanels`. -/
structure RefinedPanel where
  id : Nat
  caption : String
  deriving Repr, DecidableEq

/-- The `RefinedContent` record. -/
structure RefinedContent where
  newTitle : String
  newSummary : String
  refinedPanels : List RefinedPanel
  deriving Repr, DecidableEq

/-! ## Prompt-and-parse operations (`src/services/gemini.ts`)

Each operation is embedded as a pure function of the outcome of its
external effects.  For an operation whose `try` block covers both the
request and `JSON.parse`, that combined outcome is one
`Except JsError` value (`.error` covers request failures *and* parse
failures alike, exactly as the single `catch` does).  `findViralStories`
is special: its JSON extraction is handled *inside* the `try` by an
inner `try/catch`, so its model takes the request outcome and, on
success, the extraction outcome (`none` when no JSON array could be
matched and parsed, mirroring `parsed` staying empty). -/

/-- One story object of the parsed search reply (the code trusts
`title`/`summary` but defends `source` with a `||` default). -/
structure ParsedStoryItem where
  title : String
  summary : String
  source : Option String
  deriving Repr, DecidableEq

/-- The id template literal `story-${Date.now()}-${index}` from
`findViralStories`. -/
def mkStoryId (ts i : Nat) : String :=
  "story-" ++ Nat.repr ts ++ "-" ++ Nat.repr i

/-- The placeholder story returned by `findViralStories` when no JSON
array could be extracted from the reply text. -/
def fallbackSearchStory (targetAudience : String) : Story :=
  { id := "fallback-1"
    title := "Viral Story Search Result"
    summary := "We found stories but couldn\x27t structure them perfectly. Try refining your search topic."
    source := some "Search System"
    panelCount := some 6
    visualStyle := none
    layoutStyle := none
    targetAudience := some targetAudience }

/-- The mapping and fallback of `findViralStories` (gemini.ts lines
82–111) applied to the extraction outcome: `parseResult = none` models
"no bracketed array matched, or `JSON.parse` threw", leaving `parsed`
empty. -/
def findViralStoriesFromText (ts : Nat) (targetAudience : String)
    (parseResult : Option (List ParsedStoryItem)) : List Story :=
  let parsed := parseResult.getD []
  if 0 < parsed.length then
    parsed.mapIdx fun index item =>
      { id := mkStoryId ts index
        title := item.title
        summary := item.summary
        source := some (jsOrStr item.source "Viral Source")
        panelCount := some 6
        visualStyle := none
        layoutStyle := none
        targetAudience := some targetAudience }
  else
    [fallbackSearchStory targetAudience]

/-- Top level of `findViralStories`: a request failure reaches the outer
`catch`, which throws `new Error("Failed to fetch viral stories.")`. -/
def findViralStoriesTop (ts : Nat) (targetAudience : String)
    (outcome : Except JsError (Option (List ParsedStoryItem))) :
    Except JsError (List Story) :=
  match outcome with
  | .error _ => .error { status := none, code := none, message := some "Failed to fetch viral stories." }
  | .ok parseResult => .ok (findViralStoriesFromText ts targetAudience parseResult)

/-- The fields `createStoryFromPrompt` reads from its parsed reply. -/
structure CreateStoryData where
  title : Option String
  summary : Option String
  deriving Repr, DecidableEq

/-- `createStoryFromPrompt` (gemini.ts lines 122–173): the whole body is
one `try`, and the `catch` returns a placeholder story, so the function
is total. -/
def createStoryFromPrompt (userPrompt : String) (panelCount : Nat)
    (targetAudience : String) (ts : Nat)
    (outcome : Except JsError CreateStoryData) : Story :=
  match outcome with
  | .ok data =>
    { id := "custom-" ++ Nat.repr ts
      title := jsOrStr data.title "Untitled Story"
      summary := jsOrStr data.summary userPrompt
      source := some "User Imagination"
      panelCount := some panelCount
      visualStyle := none
      layoutStyle := none
      targetAudience := some targetAudience }
  | .error _ =>
    { id := "custom-" ++ Nat.repr ts
      title := "My Custom Story"
      summary := userPrompt
      source := some "User Imagination"
      panelCount := some panelCount
      visualStyle := none
      layoutStyle := none
      targetAudience := some targetAudience }

/-- `createStoryFromPrompt` with its result seen by the caller: always a
returned value, never a thrown error. -/
def createStoryFromPromptTop (userPrompt : String) (panelCount : Nat)
    (targetAudience : String) (ts : Nat)
    (outcome : Except JsError CreateStoryData) : Except JsError Story :=
  .ok (createStoryFromPrompt userPrompt panelCount targetAudience ts outcome)

/-- One panel object of the parsed script reply. -/
structure ScriptPanelItem where
  actionDescription : String
  caption : String
  deriving Repr, DecidableEq

/-- The fields `generateScript` reads from its parsed reply. -/
structure ScriptData where
  visualStyle : Option String
  characterDesign : Option String
  panels : Option (List ScriptPanelItem)
  deriving Repr, DecidableEq

/-- `generateScript` (gemini.ts lines 179–258): builds the panel list
from the parsed reply, or a placeholder script of `count` panels when
the request or the parse failed. -/
def generateScript (story : Story) (outcome : Except JsError ScriptData) :
    List Panel :=
  let count := jsOrNat story.panelCount 6
  let userStylePreference := jsOrStr story.visualStyle "Vibrant Digital Cartoon"
  match outcome with
  | .ok data =>
    let style := jsOrStr data.visualStyle userStylePreference
    let chars := jsOrStr data.characterDesign ""
    let rawPanels := jsOrList data.panels []
    rawPanels.mapIdx fun index item =>
      { id := index
        description := "Style: " ++ style ++ ". Characters: " ++ chars ++ ". Scene: " ++ item.actionDescription
        caption := item.caption
        imageUrl := none
        isGenerating := false }
  | .error _ =>
    (List.range count).map fun i =>
      { id := i
        description := "Style: " ++ userStylePreference ++ ". A scene from the story " ++ story.title
        caption := "Story processing..."
        imageUrl := none
        isGenerating := false }

/-- `generateScript` as seen by the caller: always a returned value. -/
def generateScriptTop (story : Story) (outcome : Except JsError ScriptData) :
    Except JsError (List Panel) :=
  .ok (generateScript story outcome)

/-- The fields `analyzeStoryPotential` reads from its parsed reply. -/
structure AnalysisData where
  score : Option Nat
  viralPotential : Option String
  coherenceCheck : Option String
  critique : Option String
  textQuality : Option String
  visualQuality : Option String
  suggestions : Option (List String)
  deriving Repr, DecidableEq

/-- The placeholder analysis returned by `analyzeStoryPotential` when
the request or the parse failed. -/
def fallbackAnalysis : AnalysisResult :=
  { score := 0
    viralPotential := "Low"
    coherenceCheck := "Error"
    critique := "Failed to contact the publisher agent."
    textQuality := "Unknown"
    visualQuality := "Unknown"
    suggestions := ["Check internet connection", "Try again"] }

/-- `analyzeStoryPotential` (gemini.ts lines 378–474). -/
def analyzeStoryPotential (outcome : Except JsError AnalysisData) :
    AnalysisResult :=
  match outcome with
  | .ok data =>
    { score := jsOrNat data.score 5
      viralPotential := jsOrStr data.viralPotential "Low"
      coherenceCheck := jsOrStr data.coherenceCheck "Not analyzed"
      critique := jsOrStr data.critique "No feedback provided"
      textQuality := jsOrStr data.textQuality "Standard"
      visualQuality := jsOrStr data.visualQuality "Standard"
      suggestions := jsOrList data.suggestions ["Try again"] }
  | .error _ => fallbackAnalysis

/-- `analyzeStoryPotential` as seen by the caller: always a value. -/
def analyzeStoryPotentialTop (outcome : Except JsError AnalysisData) :
    Except JsError AnalysisResult :=
  .ok (analyzeStoryPotential outcome)

/-- The fields `refineStoryContent` reads from its parsed reply. -/
structure RefineData where
  newTitle : Option String
  newSummary : Option String
  refinedPanels : Option (List RefinedPanel)
  deriving Repr, DecidableEq

/-- `refineStoryContent` (gemini.ts lines 479–544): unlike every other
prompt-and-parse operation, its `catch` block *rethrows* the error, so a
failed request or an unparseable reply propagates to the caller. -/
def refineStoryContent (currentTitle currentSummary : String)
    (outcome : Except JsError RefineData) : Except JsError RefinedContent :=
  match outcome with
  | .ok data =>
    .ok { newTitle := jsOrStr data.newTitle currentTitle
          newSummary := jsOrStr data.newSummary currentSummary
          refinedPanels := jsOrList data.refinedPanels [] }
  | .error e => .error e

/-- A parse-failure error value (what `JSON.parse` throws on malformed
text), used by concrete counterexamples. -/
def parseErr : JsError :=
  { status := none, code := none, message := some "Unexpected token o in JSON at position 1" }

/-- C1 counterexample: the caption-rewrite operation
(`refineStoryContent`) does *not* recover from an unparseable reply with
a placeholder — its `catch` rethrows, so the parse failure reaches the
caller, refuting the claim that every prompt-and-parse operation
degrades to a placeholder. -/
theorem refineStoryContent_surfaces_parse_failure :
    refineStoryContent "Old Title" "Old Summary" (.error parseErr) = .error parseErr := rfl

/-- C1 (amended): four of the five prompt-and-parse operations — find
trending stories, draft a story from a prompt, draft a multi-panel
script, analyze marketability — return their fixed placeholder result
when the AI reply cannot be parsed, and never surface the parse failure;
the caption-rewrite operation (`refineStoryContent`) instead propagates
the parse failure to its caller. -/
theorem promptAndParse_fallback_policy
    (e : JsError) (ts panelCount : Nat)
    (userPrompt targetAudience currentTitle currentSummary : String)
    (story : Story) :
    findViralStoriesFromText ts targetAudience none = [fallbackSearchStory targetAudience]
    ∧ createStoryFromPrompt userPrompt panelCount targetAudience ts (.error e) =
        { id := "custom-" ++ Nat.repr ts
          title := "My Custom Story"
          summary := userPrompt
          source := some "User Imagination"
          panelCount := some panelCount
          visualStyle := none
          layoutStyle := none
          targetAudience := some targetAudience }
    ∧ generateScript story (.error e) =
        (List.range (jsOrNat story.panelCount 6)).map (fun i =>
          { id := i
            description := "Style: " ++ jsOrStr story.visualStyle "Vibrant Digital Cartoon"
              ++ ". A scene from the story " ++ story.title
            caption := "Story processing..."
            imageUrl := none
            isGenerating := false })
    ∧ analyzeStoryPotential (.error e) = fallbackAnalysis
    ∧ refineStoryContent currentTitle currentSummary (.error e) = .error e :=
  ⟨rfl, rfl, rfl, rfl, rfl⟩

/-- C6 counterexample: a request failure that is neither throttling nor
a parse problem (here a 503 network error) makes `createStoryFromPrompt`
and `analyzeStoryPotential` *return placeholder values* instead of
surfacing an error, refuting the claim that every operation surfaces
such failures as errors. -/
theorem networkFailure_swallowed_counterexample :
    createStoryFromPromptTop "my idea" 6 "Adults" 0 (.error plainErr) =
      .ok { id := "custom-" ++ Nat.repr 0
            title := "My Custom Story"
            summary := "my idea"
            source := some "User Imagination"
            panelCount := some 6
            visualStyle := none
            layoutStyle := none
            targetAudience := some "Adults" }
    ∧ analyzeStoryPotentialTop (.error plainErr) = .ok fallbackAnalysis :=
  ⟨rfl, rfl⟩

/-- C6 (amended): only `findViralStories` (wrapping the failure into the
generic indicator "Failed to fetch viral stories.") and
`refineStoryContent` (rethrowing the original error) surface a
non-throttling, non-parse request failure to the caller as an error;
`createStoryFromPrompt`, `generateScript` and `analyzeStoryPotential`
swallow every such failure and return their placeholder values
instead. -/
theorem requestFailure_surfacing
    (e : JsError) (ts panelCount : Nat)
    (userPrompt targetAudience currentTitle currentSummary : String)
    (story : Story) :
    findViralStoriesTop ts targetAudience (.error e) =
      .error { status := none, code := none, message := some "Failed to fetch viral stories." }
    ∧ refineStoryContent currentTitle currentSummary (.error e) = .error e
    ∧ (∃ st, createStoryFromPromptTop userPrompt panelCount targetAudience ts (.error e) = .ok st)
    ∧ (∃ ps, generateScriptTop story (.error e) = .ok ps)
    ∧ (∃ ar, analyzeStoryPotentialTop (.error e) = .ok ar) :=
  ⟨rfl, rfl, ⟨_, rfl⟩, ⟨_, rfl⟩, ⟨_, rfl⟩⟩

/-- C10: when no JSON array can be parsed out of the search reply, the
story search returns exactly one placeholder entry, and its source field
is "Search System". -/
theorem findViralStories_unparseable_fallback (ts : Nat) (targetAudience : String) :
    findViralStoriesFromText ts targetAudience none = [fallbackSearchStory targetAudience]
    ∧ (findViralStoriesFromText ts targetAudience none).length = 1
    ∧ ∀ st ∈ findViralStoriesFromText ts targetAudience none,
        st.source = some "Search System" := by
  refine ⟨rfl, rfl, ?_⟩
  intro st hst
  have heq : findViralStoriesFromText ts targetAudience none =
      [fallbackSearchStory targetAudience] := rfl
  rw [heq, List.mem_singleton] at hst
  rw [hst]
  rfl

/-! ## Decimal representation: `Nat.repr` is injective

Needed to show that the id template `story-${ts}-${index}` yields
pairwise distinct ids for distinct indices. -/

/-- Big-endian decimal digit characters of a natural number. -/
def natDigs (n : Nat) : List Char :=
  if _h : n < 10 then [Nat.digitChar n]
  else natDigs (n / 10) ++ [Nat.digitChar (n % 10)]
  termination_by n
  decreasing_by
    exact Nat.div_lt_self (by omega) (by omega)

theorem toDigitsCore_eq_natDigs :
    ∀ (fuel n : Nat) (ds : List Char), n < fuel →
      Nat.toDigitsCore 10 fuel n ds = natDigs n ++ ds := by
  intro fuel
  induction fuel with
  | zero => intro n ds h; omega
  | succ f ih =>
    intro n ds h
    by_cases h10 : n < 10
    · have hd : n / 10 = 0 := Nat.div_eq_of_lt h10
      have hm : n % 10 = n := Nat.mod_eq_of_lt h10
      simp [Nat.toDigitsCore, hd, natDigs, h10, hm]
    · have hdiv : n / 10 < n := Nat.div_lt_self (by omega) (by omega)
      have hne : ¬ n / 10 = 0 := by
        have h10le : 10 ≤ n := by omega
        have := Nat.le_div_iff_mul_le (k := 10) (by omega) |>.mpr (by omega : 1 * 10 ≤ n)
        omega
      have hrec := ih (n / 10) (Nat.digitChar (n % 10) :: ds) (by omega)
      rw [show natDigs n = natDigs (n / 10) ++ [Nat.digitChar (n % 10)] by
            rw [natDigs]; simp [h10]]
      simp [Nat.toDigitsCore, hne, hrec]

theorem repr_eq_natDigs (n : Nat) : Nat.repr n = (natDigs n).asString := by
  rw [Nat.repr, Nat.toDigits, toDigitsCore_eq_natDigs (n + 1) n [] (by omega)]
  simp

/-- Decimal valuation of a digit-character list. -/
def digsVal (l : List Char) : Nat :=
  l.foldl (fun a c => a * 10 + (c.toNat - 48)) 0

theorem digitChar_toNat (m : Nat) (h : m < 10) : (Nat.digitChar m).toNat - 48 = m := by
  interval_cases m <;> decide

theorem digsVal_shift (a : List Char) (c : Char) :
    digsVal (a ++ [c]) = digsVal a * 10 + (c.toNat - 48) := by
  simp [digsVal, List.foldl_append]

theorem digsVal_natDigs (n : Nat) : digsVal (natDigs n) = n := by
  induction n using Nat.strong_induction_on with
  | _ n ih =>
    by_cases h10 : n < 10
    · rw [natDigs]; simp [h10, digsVal, digitChar_toNat n h10]
    · have hdiv : n / 10 < n := Nat.div_lt_self (by omega) (by omega)
      rw [natDigs]
      simp only [h10, dite_false]
      rw [digsVal_shift, ih (n / 10) hdiv, digitChar_toNat (n % 10) (by omega)]
      omega

theorem natReprData_inj {m n : Nat}
    (h : (Nat.repr m).data = (Nat.repr n).data) : m = n := by
  have hlist : natDigs m = natDigs n := by
    rw [repr_eq_natDigs, repr_eq_natDigs] at h
    simpa [List.asString] using h
  have := congrArg digsVal hlist
  rwa [digsVal_natDigs, digsVal_natDigs] at this

theorem mkStoryId_inj (ts : Nat) : Function.Injective (mkStoryId ts) := by
  intro i j h
  have hd := congrArg String.data h
  simp only [mkStoryId, String.data_append] at hd
  have h1 := List.append_cancel_left hd
  exact natReprData_inj h1

/-- Helper: the ids assigned by a successful story search are exactly
`mkStoryId ts` over the indices `0, …, length-1`. -/
theorem findViralStories_map_id (ts : Nat) (aud : String)
    (parsed : List ParsedStoryItem) (h : parsed ≠ []) :
    (findViralStoriesFromText ts aud (some parsed)).map Story.id =
      (List.range parsed.length).map (mkStoryId ts) := by
  have hlen : 0 < parsed.length := List.length_pos.mpr h
  simp only [findViralStoriesFromText, Option.getD_some, if_pos hlen]
  apply List.ext_getElem
  · simp
  · intro n h1 h2
    simp [List.getElem_mapIdx]

/-- C9: on a valid, non-empty story-search reply the result list is the
same length as the parsed entry list, its ids are pairwise distinct, and
every entry carries the requested target audience. -/
theorem findViralStories_parsed_spec (ts : Nat) (aud : String)
    (parsed : List ParsedStoryItem) (h : parsed ≠ []) :
    (findViralStoriesFromText ts aud (some parsed)).length = parsed.length
    ∧ ((findViralStoriesFromText ts aud (some parsed)).map Story.id).Nodup
    ∧ ∀ st ∈ findViralStoriesFromText ts aud (some parsed),
        st.targetAudience = some aud := by
  have hlen : 0 < parsed.length := List.length_pos.mpr h
  refine ⟨?_, ?_, ?_⟩
  · simp [findViralStoriesFromText, if_pos hlen]
  · rw [findViralStories_map_id ts aud parsed h]
    exact (List.nodup_range parsed.length).map (mkStoryId_inj ts)
  · intro st hst
    simp only [findViralStoriesFromText, Option.getD_some, if_pos hlen] at hst
    rw [List.mem_iff_getElem] at hst
    obtain ⟨n, hn, heq⟩ := hst
    rw [List.getElem_mapIdx] at heq
    rw [← heq]

/-- Witness for C9 at a concrete one-entry parsed reply. -/
theorem findViralStories_parsed_spec_witness :
    (findViralStoriesFromText 5 "Kids" (some [⟨"T", "S", none⟩])).length =
      ([⟨"T", "S", none⟩] : List ParsedStoryItem).length
    ∧ ((findViralStoriesFromText 5 "Kids" (some [⟨"T", "S", none⟩])).map Story.id).Nodup
    ∧ ∀ st ∈ findViralStoriesFromText 5 "Kids" (some [⟨"T", "S", none⟩]),
        st.targetAudience = some "Kids" :=
  findViralStories_parsed_spec 5 "Kids" [⟨"T", "S", none⟩] (by simp)

/-! ## Sequential illustration batch (`src/components/EbookCreator.tsx`) -/

/-- Observable actions of `generateImagesSequentially`: an
image-generation request for a panel, or an awaited fixed pause. -/
inductive GenEvent
  | call (id : Nat) (description : String)
  | pause (ms : Nat)
  deriving Repr, DecidableEq

/-- The guard `!p.imageUrl && !p.isGenerating` from
`generateImagesSequentially` (JS falsiness: an absent or empty
`imageUrl` counts as "no image"). -/
def panelNeedsImage (p : Panel) : Bool :=
  (match p.imageUrl with
   | none => true
   | some url => url = "") && !p.isGenerating

/-- Shallow embedding of `generateImagesSequentially` (EbookCreator.tsx
lines 90–99) as the trace of actions it performs on the given panel
list: for each panel in list order, when the guard holds, one
image-generation call followed by one 4000 ms pause. -/
def generateImagesSequentially : List Panel → List GenEvent
  | [] => []
  | p :: rest =>
    if panelNeedsImage p then
      .call p.id p.description :: .pause 4000 :: generateImagesSequentially rest
    else generateImagesSequentially rest

/-- The panel ids of the image-generation calls of a trace, in order. -/
def callIds (evs : List GenEvent) : List Nat :=
  evs.filterMap fun ev =>
    match ev with
    | .call i _ => some i
    | .pause _ => none

/-- Helper: the batch trace is exactly one call-then-pause block per
panel passing the guard, in list order. -/
theorem generateImagesSequentially_eq_bind (panels : List Panel) :
    generateImagesSequentially panels =
      (panels.filter panelNeedsImage).flatMap
        (fun p => [GenEvent.call p.id p.description, GenEvent.pause 4000]) := by
  induction panels with
  | nil => rfl
  | cons p rest ih =>
    by_cases hp : panelNeedsImage p <;>
      simp [generateImagesSequentially, hp, ih, List.filter_cons]

/-- Helper: the calls issued are exactly the guarded panels' ids in list
order. -/
theorem callIds_generateImagesSequentially (panels : List Panel) :
    callIds (generateImagesSequentially panels) =
      (panels.filter panelNeedsImage).map Panel.id := by
  induction panels with
  | nil => rfl
  | cons p rest ih =>
    simp only [callIds] at ih ⊢
    by_cases hp : panelNeedsImage p <;>
      simp [generateImagesSequentially, hp, ih, List.filter_cons]

/-- A panel that holds no image but is flagged as mid-generation. -/
def stuckPanel : Panel :=
  { id := 0, description := "scene", caption := "cap", imageUrl := none, isGenerating := true }

/-- C2 counterexample: a list of one panel holding no image for which
the batch issues zero image-generation calls, not one — the panel is
skipped because its mid-generation flag is set, refuting "for every list
of N panels none of which holds an image, … exactly N image-generation
calls". -/
theorem generateImagesSequentially_counterexample :
    stuckPanel.imageUrl = none ∧ [stuckPanel].length = 1
    ∧ callIds (generateImagesSequentially [stuckPanel]) = [] :=
  ⟨rfl, rfl, rfl⟩

/-- C2 (amended): for every list of panels with pairwise-distinct ids:
if no panel holds an image and none is marked mid-generation, the batch
issues exactly one image-generation call per panel in list order, each
followed by a fixed 4000 ms pause; a panel that already holds an image
or is mid-generation receives no call, so re-invoking the batch after
some panels completed issues no duplicate call for them; and when the
ids are the ascending sequence 0,…,N−1 (as `generateScript` produces)
the calls occur in strictly ascending panel order. -/
theorem generateImagesSequentially_spec (panels : List Panel)
    (hnodup : (panels.map Panel.id).Nodup) :
    ((∀ p ∈ panels, panelNeedsImage p = true) →
        generateImagesSequentially panels =
          panels.flatMap (fun p => [GenEvent.call p.id p.description, GenEvent.pause 4000])
        ∧ callIds (generateImagesSequentially panels) = panels.map Panel.id
        ∧ (callIds (generateImagesSequentially panels)).length = panels.length)
    ∧ (∀ p ∈ panels, panelNeedsImage p = false →
        p.id ∉ callIds (generateImagesSequentially panels))
    ∧ ((∀ p ∈ panels, panelNeedsImage p = true) →
        panels.map Panel.id = List.range panels.length →
        List.Pairwise (· < ·) (callIds (generateImagesSequentially panels))) := by
  refine ⟨?_, ?_, ?_⟩
  · intro hall
    have hfilter : panels.filter panelNeedsImage = panels :=
      List.filter_eq_self.mpr hall
    refine ⟨?_, ?_, ?_⟩
    · rw [generateImagesSequentially_eq_bind, hfilter]
    · rw [callIds_generateImagesSequentially, hfilter]
    · rw [callIds_generateImagesSequentially, hfilter, List.length_map]
  · intro p hp hguard hmem
    rw [callIds_generateImagesSequentially] at hmem
    rw [List.mem_map] at hmem
    obtain ⟨q, hqmem, hqid⟩ := hmem
    rw [List.mem_filter] at hqmem
    have hpq : q = p :=
      List.inj_on_of_nodup_map hnodup hqmem.1 hp hqid
    have htrue : panelNeedsImage p = true := hpq ▸ hqmem.2
    rw [hguard] at htrue
    exact Bool.false_ne_true htrue
  · intro hall hrange
    have hfilter : panels.filter panelNeedsImage = panels :=
      List.filter_eq_self.mpr hall
    rw [callIds_generateImagesSequentially, hfilter, hrange]
    exact List.pairwise_lt_range panels.length

/-- A panel awaiting illustration. -/
def freshPanel0 : Panel :=
  { id := 0, description := "a", caption := "c0", imageUrl := none, isGenerating := false }

/-- A panel that already holds an image. -/
def donePanel1 : Panel :=
  { id := 1, description := "b", caption := "c1",
    imageUrl := some "data:image/png;base64,AAAA", isGenerating := false }

/-- Witness for C2 (amended) at a concrete two-panel list: the panel
that already holds an image gets no image-generation call on
re-entry. -/
theorem generateImagesSequentially_spec_witness :
    donePanel1.id ∉ callIds (generateImagesSequentially [freshPanel0, donePanel1]) :=
  (generateImagesSequentially_spec [freshPanel0, donePanel1] (by decide)).2.1
    donePanel1 (by decide) (by decide)

/-! ## Refinement application (`handleFixText`, EbookCreator.tsx) -/

/-- Shallow embedding of the panel update in `handleFixText`
(EbookCreator.tsx lines 198–201):
`prev.map(p => { const update = refined.refinedPanels.find(rp => rp.id === p.id);
return update ? { ...p, caption: update.caption } : p; })`. -/
def applyRefinement (refined : RefinedContent) (panels : List Panel) : List Panel :=
  panels.map fun p =>
    match refined.refinedPanels.find? (fun rp => rp.id == p.id) with
    | some u => { p with caption := u.caption }
    | none => p

/-- C7: applying a refinement result replaces the caption of exactly
those panels whose identifier appears in `refinedPanels` (with the
caption of the first matching entry), and every panel whose identifier
does not appear keeps its caption and all other fields unchanged. -/
theorem applyRefinement_spec (refined : RefinedContent) (panels : List Panel) :
    (applyRefinement refined panels).length = panels.length
    ∧ List.Forall₂ (fun p q =>
        q.id = p.id ∧ q.description = p.description ∧ q.imageUrl = p.imageUrl
        ∧ q.isGenerating = p.isGenerating
        ∧ ((∀ rp ∈ refined.refinedPanels, rp.id ≠ p.id) → q = p)
        ∧ (∀ u, refined.refinedPanels.find? (fun rp => rp.id == p.id) = some u →
            q.caption = u.caption)
        ∧ ((∃ rp ∈ refined.refinedPanels, rp.id = p.id) →
            ∃ u ∈ refined.refinedPanels, u.id = p.id ∧ q.caption = u.caption)
        ∧ (q.caption ≠ p.caption → ∃ rp ∈ refined.refinedPanels, rp.id = p.id))
      panels (applyRefinement refined panels) := by
  constructor
  · simp [applyRefinement]
  · rw [applyRefinement, List.forall₂_map_right_iff, List.forall₂_same]
    intro p _
    cases hr : refined.refinedPanels.find? (fun rp => rp.id == p.id) with
    | none =>
      refine ⟨rfl, rfl, rfl, rfl, fun _ => rfl, ?_, ?_, ?_⟩
      · intro u hu
        exact Option.noConfusion hu
      · rintro ⟨rp, hrpmem, hrpid⟩
        have hnot := List.find?_eq_none.mp hr rp hrpmem
        rw [hrpid] at hnot
        simp at hnot
      · intro hne
        exact absurd rfl hne
    | some u =>
      have humem : u ∈ refined.refinedPanels := List.mem_of_find?_eq_some hr
      have huid : u.id = p.id := by
        have hbeq := List.find?_some hr
        simpa using hbeq
      refine ⟨rfl, rfl, rfl, rfl, ?_, ?_, ?_, ?_⟩
      · intro hnone
        exact absurd huid (hnone u humem)
      · intro u' hu'
        have h := Option.some.inj hu'
        rw [← h]
      · intro _
        exact ⟨u, humem, huid, rfl⟩
      · intro _
        exact ⟨u, humem, huid⟩

/-! ## Data-URI round trip (`base64ToBlob`, EbookCreator.tsx)

Image payloads travel as `data:image/png;base64,<data>` strings
(`generatePanelImage`, gemini.ts line 285, prefixes the service's base64
payload with the header) and are decoded back to binary by
`base64ToBlob` (EbookCreator.tsx lines 23–39).  The base64 code itself
lives outside the repository — the service produces it and the browser
built-in `window.atob` decodes it — so standard base64 is embedded here:
`encodeB64` is the standard encoder with `=` padding, `decodeB64` is
`window.atob` composed with the `charCodeAt` loop of `base64ToBlob`.
Bytes are `Nat` values below 256. -/

/-- The 64-character base64 alphabet. -/
def b64Alphabet : List Char :=
  "ABCDEFGHIJKLMNOPQRSTUVWXYZabcdefghijklmnopqrstuvwxyz0123456789+/".data

/-- Character for a 6-bit group. -/
def b64Char (n : Nat) : Char := b64Alphabet.getD n 'A'

/-- 6-bit value of an alphabet character. -/
def b64Val (c : Char) : Nat := b64Alphabet.indexOf c

/-- Standard base64 encoding of a byte list, with `=` padding. -/
def encodeB64 : List Nat → List Char
  | [] => []
  | [a] => [b64Char (a / 4), b64Char (a % 4 * 16), '=', '=']
  | [a, b] => [b64Char (a / 4), b64Char (a % 4 * 16 + b / 16), b64Char (b % 16 * 4), '=']
  | a :: b :: c :: rest =>
    b64Char (a / 4) :: b64Char (a % 4 * 16 + b / 16) ::
      b64Char (b % 16 * 4 + c / 64) :: b64Char (c % 64) :: encodeB64 rest

/-- Base64 decoding (`window.atob` followed by the `charCodeAt` loop of
`base64ToBlob`, which turns the binary string into a byte array). -/
def decodeB64 : List Char → List Nat
  | c1 :: c2 :: c3 :: c4 :: rest =>
    if c3 = '=' then [b64Val c1 * 4 + b64Val c2 / 16]
    else if c4 = '=' then
      [b64Val c1 * 4 + b64Val c2 / 16, b64Val c2 % 16 * 16 + b64Val c3 / 4]
    else
      (b64Val c1 * 4 + b64Val c2 / 16) :: (b64Val c2 % 16 * 16 + b64Val c3 / 4) ::
        (b64Val c3 % 4 * 64 + b64Val c4) :: decodeB64 rest
  | _ => []

theorem b64Val_b64Char : ∀ n, n < 64 → b64Val (b64Char n) = n := by decide

theorem b64Char_ne_pad : ∀ n, n < 64 → b64Char n ≠ '=' := by decide

theorem b64Char_ne_semi : ∀ n, n < 64 → b64Char n ≠ ';' := by decide

/-- Helper: base64 decoding inverts encoding on byte lists. -/
theorem decodeB64_encodeB64 :
    ∀ (bytes : List Nat), (∀ x ∈ bytes, x < 256) →
      decodeB64 (encodeB64 bytes) = bytes
  | [], _ => rfl
  | [a], h => by
    have ha : a < 256 := h a (by simp)
    have h1 : a / 4 < 64 := by omega
    have h2 : a % 4 * 16 < 64 := by omega
    simp [encodeB64, decodeB64, b64Val_b64Char _ h1, b64Val_b64Char _ h2]
    omega
  | [a, b], h => by
    have ha : a < 256 := h a (by simp)
    have hb : b < 256 := h b (by simp)
    have h1 : a / 4 < 64 := by omega
    have h2 : a % 4 * 16 + b / 16 < 64 := by omega
    have h3 : b % 16 * 4 < 64 := by omega
    have hne3 : b64Char (b % 16 * 4) ≠ '=' := b64Char_ne_pad _ h3
    simp [encodeB64, decodeB64, hne3, b64Val_b64Char _ h1, b64Val_b64Char _ h2,
      b64Val_b64Char _ h3]
    omega
  | a :: b :: c :: rest, h => by
    have ha : a < 256 := h a (by simp)
    have hb : b < 256 := h b (by simp)
    have hc : c < 256 := h c (by simp)
    have h1 : a / 4 < 64 := by omega
    have h2 : a % 4 * 16 + b / 16 < 64 := by omega
    have h3 : b % 16 * 4 + c / 64 < 64 := by omega
    have h4 : c % 64 < 64 := by omega
    have hne3 : b64Char (b % 16 * 4 + c / 64) ≠ '=' := b64Char_ne_pad _ h3
    have hne4 : b64Char (c % 64) ≠ '=' := b64Char_ne_pad _ h4
    have hrest := decodeB64_encodeB64 rest (fun x hx => h x (by simp [hx]))
    simp [encodeB64, decodeB64, hne3, hne4, b64Val_b64Char _ h1, b64Val_b64Char _ h2,
      b64Val_b64Char _ h3, b64Val_b64Char _ h4, hrest]
    omega

/-- Helper: base64 text contains no semicolon, so the `;base64,`
separator cannot occur inside the payload. -/
theorem semi_not_in_encodeB64 :
    ∀ (bytes : List Nat), (∀ x ∈ bytes, x < 256) →
      ';' ∉ encodeB64 bytes
  | [], _ => by simp [encodeB64]
  | [a], h => by
    have ha : a < 256 := h a (by simp)
    intro hmem
    simp only [encodeB64, List.mem_cons, List.not_mem_nil, or_false] at hmem
    rcases hmem with h1 | h2 | h3 | h4
    · exact b64Char_ne_semi _ (by omega) h1.symm
    · exact b64Char_ne_semi _ (by omega) h2.symm
    · exact absurd h3 (by decide)
    · exact absurd h4 (by decide)
  | [a, b], h => by
    have ha : a < 256 := h a (by simp)
    have hb : b < 256 := h b (by simp)
    intro hmem
    simp only [encodeB64, List.mem_cons, List.not_mem_nil, or_false] at hmem
    rcases hmem with h1 | h2 | h3 | h4
    · exact b64Char_ne_semi _ (by omega) h1.symm
    · exact b64Char_ne_semi _ (by omega) h2.symm
    · exact b64Char_ne_semi _ (by omega) h3.symm
    · exact absurd h4 (by decide)
  | a :: b :: c :: rest, h => by
    have ha : a < 256 := h a (by simp)
    have hb : b < 256 := h b (by simp)
    have hc : c < 256 := h c (by simp)
    have hrest := semi_not_in_encodeB64 rest (fun x hx => h x (by simp [hx]))
    intro hmem
    simp only [encodeB64, List.mem_cons] at hmem
    rcases hmem with h1 | h2 | h3 | h4 | h5
    · exact b64Char_ne_semi _ (by omega) h1.symm
    · exact b64Char_ne_semi _ (by omega) h2.symm
    · exact b64Char_ne_semi _ (by omega) h3.symm
    · exact b64Char_ne_semi _ (by omega) h4.symm
    · exact hrest h5

/-- Helper: scanning for a separator starting with `;` finds nothing in
semicolon-free text. -/
theorem findSeq_none_of_semi_not_mem (r l : List Char) (h : ';' ∉ l) :
    findSeq (';' :: r) l = none := by
  induction l with
  | nil => rfl
  | cons c rest ih =>
    have hc : c ≠ ';' := fun hcc => h (by simp [hcc])
    have hrest : ';' ∉ rest := fun hm => h (by simp [hm])
    have hnp : ¬ ((';' :: r).isPrefixOf (c :: rest) = true) := by
      intro hpre
      rcases List.isPrefixOf_iff_prefix.mp hpre with ⟨t, ht⟩
      rw [List.cons_append] at ht
      injection ht with h1 _
      exact hc h1.symm
    rw [findSeq, if_neg hnp, ih hrest]
    rfl

/-- Helper: the first occurrence of a `;`-initial separator in
`a ++ sep ++ b` (with `a` semicolon-free) is precisely at the
boundary. -/
theorem findSeq_boundary (r a b : List Char) (h : ';' ∉ a) :
    findSeq (';' :: r) (a ++ (';' :: r) ++ b) = some (a, b) := by
  induction a with
  | nil =>
    have hp : (';' :: r).isPrefixOf ((';' :: r) ++ b) = true :=
      List.isPrefixOf_iff_prefix.mpr ⟨b, rfl⟩
    have hdrop : ((';' :: r) ++ b).drop (';' :: r).length = b := List.drop_left _ _
    rw [List.nil_append]
    rw [show (';' :: r) ++ b = ';' :: (r ++ b) from List.cons_append _ _ _]
    rw [findSeq]
    rw [show (';' :: (r ++ b)) = (';' :: r) ++ b from (List.cons_append _ _ _).symm]
    rw [if_pos hp, hdrop]
  | cons c a' ih =>
    have hc : c ≠ ';' := fun hcc => h (by simp [hcc])
    have ha' : ';' ∉ a' := fun hm => h (by simp [hm])
    have hnp : ¬ ((';' :: r).isPrefixOf (c :: (a' ++ (';' :: r) ++ b)) = true) := by
      intro hpre
      rcases List.isPrefixOf_iff_prefix.mp hpre with ⟨t, ht⟩
      rw [List.cons_append] at ht
      injection ht with h1 _
      exact hc h1.symm
    rw [show (c :: a') ++ (';' :: r) ++ b = c :: (a' ++ (';' :: r) ++ b) by simp]
    rw [findSeq, if_neg hnp, ih ha']
    rfl

/-- The result of `base64ToBlob`: decoded bytes plus a MIME type. -/
structure Blob where
  bytes : List Nat
  type : List Char
  deriving Repr, DecidableEq

/-- The separator `';base64,'` that `base64ToBlob` splits on. -/
def sepB64 : List Char := ";base64,".data

/-- Shallow embedding of `base64ToBlob` (EbookCreator.tsx lines 23–39):
`parts = base64.split(';base64,')`; the content type is
`parts[0]?.split(':')[1] || 'image/png'`; the payload `parts[1]` is
decoded by `atob` and turned into bytes by the `charCodeAt` loop.  When
`parts[1]` is `undefined` (separator absent) `atob` throws and the
function fails, hence `none`. -/
def base64ToBlob (s : List Char) : Option Blob :=
  match splitPart1 sepB64 s with
  | none => none
  | some raw =>
    some { bytes := decodeB64 raw
           type := match splitPart1 [':'] (splitPart0 sepB64 s) with
                   | some ct => if ct = [] then "image/png".data else ct
                   | none => "image/png".data }

/-- The data-URI template `data:image/png;base64,${data}` from
`generatePanelImage` (gemini.ts line 285). -/
def mkDataUri (b64 : List Char) : List Char :=
  "data:image/png;base64,".data ++ b64

/-- C8: encoding a generated image's binary content as a
`data:image/png;base64,` data URI and decoding it back with
`base64ToBlob` yields byte-identical content and recovers the MIME type
`image/png`. -/
theorem dataUri_roundtrip (bytes : List Nat) (h : ∀ x ∈ bytes, x < 256) :
    base64ToBlob (mkDataUri (encodeB64 bytes)) =
      some { bytes := bytes, type := "image/png".data } := by
  have hsep : sepB64 = ';' :: "base64,".data := by decide
  have hhdr : "data:image/png;base64,".data = "data:image/png".data ++ sepB64 := by decide
  have hnosemi : ';' ∉ "data:image/png".data := by decide
  have hfind : findSeq sepB64 (mkDataUri (encodeB64 bytes)) =
      some ("data:image/png".data, encodeB64 bytes) := by
    rw [mkDataUri, hhdr, hsep]
    exact findSeq_boundary _ _ _ hnosemi
  have hfind2 : findSeq sepB64 (encodeB64 bytes) = none := by
    rw [hsep]
    exact findSeq_none_of_semi_not_mem _ _ (semi_not_in_encodeB64 bytes h)
  have hp0 : splitPart0 sepB64 (mkDataUri (encodeB64 bytes)) = "data:image/png".data := by
    rw [splitPart0, hfind]
  have hp1 : splitPart1 sepB64 (mkDataUri (encodeB64 bytes)) = some (encodeB64 bytes) := by
    rw [splitPart1, hfind]
    simp only [splitPart0, hfind2]
  simp only [base64ToBlob, hp1, hp0]
  rw [decodeB64_encodeB64 bytes h]
  rfl

/-- Witness for C8 at the four-byte PNG signature prefix. -/
theorem dataUri_roundtrip_witness :
    base64ToBlob (mkDataUri (encodeB64 [137, 80, 78, 71])) =
      some { bytes := [137, 80, 78, 71], type := "image/png".data } :=
  dataUri_roundtrip [137, 80, 78, 71] (by decide)
